import Mathlib

-- Verification model of the resume/job workflow of src/app.py.
-- The three LangGraph nodes (retrieve_jobs, generate_analysis, tailor_resume),
-- the state schema AgentState, the graph wiring, and the two state-combination
-- operations used by the program are embedded as executable Lean definitions.

namespace CareerAssistant

-- A job record: a string-keyed mapping of string values (a Pinecone match
-- metadata dict).  Lookup follows Python dict.get.
abbrev Job := List (String × String)

-- dict.get(k): the value stored under k, or none (Python None) when absent.
def Job.get (j : Job) (k : String) : Option String :=
  (List.find? (fun p => p.1 = k) j).map Prod.snd

-- dict.get(k, d): the value stored under k, or the default d when absent.
def Job.getD (j : Job) (k d : String) : String :=
  (Job.get j k).getD d

-- Python rendering of an optional string inside an f-string: None prints as
-- the four characters "None".
def pyOptStr : Option String → String
  | none => "None"
  | some s => s

-- Python truthiness of an optional string: None and the empty string are falsy.
def pyTruthyStr : Option String → Bool
  | none => false
  | some s => !(s == "")

-- A chat prompt: the (role, content) message pairs built by
-- ChatPromptTemplate.from_messages in src/app.py.
abbrev Prompt := List (String × String)

-- AgentState (src/app.py lines 211-216), together with the optional error
-- key that the failure branches of the three nodes write into the state.
structure AgentState where
  resume_text : String
  jobs : List Job
  history : List String
  current_response : String
  selected_job : Option Job
  error : Option String
  deriving DecidableEq

-- A partial state update returned by a workflow node.  Only the keys the
-- three nodes ever produce appear; none encodes that the key is absent from
-- the returned dict.
structure PartialUpdate where
  jobs : Option (List Job)
  history : Option (List String)
  current_response : Option String
  error : Option String
  deriving DecidableEq

-- The LangGraph channel merge determined by the AgentState declaration:
-- every key present in the partial replaces the previous value, except
-- history, whose Annotated[List[str], operator.add] channel concatenates the
-- new entries onto the existing log (src/app.py line 214).
def mergeState (s : AgentState) (p : PartialUpdate) : AgentState :=
  { resume_text := s.resume_text
    jobs := p.jobs.getD s.jobs
    history := s.history ++ p.history.getD []
    current_response := p.current_response.getD s.current_response
    selected_job := s.selected_job
    error := match p.error with
             | some e => some e
             | none => s.error }

-- Plain Python dict.update, as applied to the session copy of the state by
-- the caller (src/app.py lines 294-296 and line 324): every key present in
-- the partial, history included, replaces the previous value.
def sessionUpdate (s : AgentState) (p : PartialUpdate) : AgentState :=
  { resume_text := s.resume_text
    jobs := p.jobs.getD s.jobs
    history := p.history.getD s.history
    current_response := p.current_response.getD s.current_response
    selected_job := s.selected_job
    error := match p.error with
             | some e => some e
             | none => s.error }

-- retrieve_jobs (src/app.py lines 219-231).  The embedding model and the
-- vector index are injected; Except.error models the external call raising,
-- which the try/except of the node turns into an error partial.  On success
-- the node keeps only matches whose metadata is truthy (non-None, non-empty
-- mapping), mirroring the filter in the list comprehension on line 228, and
-- queries with top_k = 5.
def retrieve_jobs {V : Type} (embed : String → Except String V)
    (query : V → Nat → Except String (List (Option Job)))
    (state : AgentState) : PartialUpdate :=
  match embed state.resume_text with
  | Except.error e =>
      { jobs := none, history := some ["Job retrieval failed"],
        current_response := none, error := some e }
  | Except.ok v =>
      match query v 5 with
      | Except.error e =>
          { jobs := none, history := some ["Job retrieval failed"],
            current_response := none, error := some e }
      | Except.ok results =>
          { jobs := some ((results.filterMap id).filter (fun j => !(List.isEmpty j))),
            history := some ["Retrieved jobs from Pinecone"],
            current_response := none, error := none }

-- The per-job text block of generate_analysis (src/app.py lines 237-238):
-- title and company via dict.get with no default (None renders as "None"),
-- description via dict.get with default "" truncated to 300 characters.
def analysisJobText (job : Job) : String :=
  "Title: " ++ pyOptStr (Job.get job "Job Title") ++
  "\nCompany: " ++ pyOptStr (Job.get job "Company Name") ++
  "\nDescription: " ++ (Job.getD job "Job Description" "").take 300

-- The two-message prompt of generate_analysis (src/app.py lines 240-243).
def analysisPrompt (jobs : List Job) : Prompt :=
  [("system", "You\x27re a career advisor. Analyze these jobs and give 3-5 brief recommendations:"),
   ("human", "Resume content will follow this message. Here are matching jobs:\n\n" ++
             String.intercalate "\n\n" (jobs.map analysisJobText) ++
             "\n\nProvide concise, actionable advice for the applicant.")]

-- generate_analysis (src/app.py lines 233-249).  An empty (falsy) jobs list
-- short-circuits before any prompt is built; otherwise the injected LLM is
-- called, with its failure converted into an error partial by the try/except.
def generate_analysis (llm : Prompt → Except String String)
    (state : AgentState) : PartialUpdate :=
  if state.jobs.isEmpty then
    { jobs := none, history := some ["Skipped analysis"],
      current_response := some "No jobs found for analysis", error := none }
  else
    match llm (analysisPrompt state.jobs) with
    | Except.ok analysis =>
        { jobs := none, history := some ["Generated career analysis"],
          current_response := some analysis, error := none }
    | Except.error e =>
        { jobs := none, history := some ["Analysis generation failed"],
          current_response := none, error := some e }

-- The two-message prompt of tailor_resume (src/app.py lines 256-259).
def tailorPrompt (title : String) (sj : Job) (resume_text : String) : Prompt :=
  [("system", "You\x27re a professional resume writer. Tailor this resume for the specific job."),
   ("human", "Job Title: " ++ title ++
             "\nJob Description:\n" ++ Job.getD sj "Job Description" "" ++
             "\n\nResume:\n" ++ resume_text ++
             "\n\nProvide specific suggestions to modify the resume. Focus on matching keywords and required skills.")]

-- tailor_resume (src/app.py lines 251-263).  A falsy selected_job (None or
-- an empty mapping) skips the step.  The title is read with a direct
-- subscript state["selected_job"]["Job Title"] (line 258): when the key is
-- absent this raises KeyError, whose str() is the quoted key name, and the
-- surrounding try/except turns it into an error partial.  An LLM failure is
-- converted the same way.
def tailor_resume (llm : Prompt → Except String String)
    (state : AgentState) : PartialUpdate :=
  match state.selected_job with
  | none =>
      { jobs := none, history := some ["Skipped tailoring"],
        current_response := some "No job selected for tailoring", error := none }
  | some sj =>
      if List.isEmpty sj then
        { jobs := none, history := some ["Skipped tailoring"],
          current_response := some "No job selected for tailoring", error := none }
      else
        match Job.get sj "Job Title" with
        | none =>
            { jobs := none, history := some ["Tailoring failed"],
              current_response := none, error := some "\x27Job Title\x27" }
        | some title =>
            match llm (tailorPrompt title sj state.resume_text) with
            | Except.ok response =>
                { jobs := none, history := some ["Generated tailored resume suggestions"],
                  current_response := some response, error := none }
            | Except.error e =>
                { jobs := none, history := some ["Tailoring failed"],
                  current_response := none, error := some e }

-- The conditional edge after generate_analysis (src/app.py line 275):
-- lambda x: "tailor_resume" if x.get("selected_job") else END.  Python
-- truthiness makes both None and an empty mapping select END.
def branchToTailor (s : AgentState) : Bool :=
  match s.selected_job with
  | none => false
  | some j => !(List.isEmpty j)

-- The state after the entry node retrieve_jobs has run and been merged.
def afterRetrieve {V : Type} (embed : String → Except String V)
    (query : V → Nat → Except String (List (Option Job)))
    (s : AgentState) : AgentState :=
  mergeState s (retrieve_jobs embed query s)

-- The state after the unconditional edge retrieve_jobs -> generate_analysis
-- has run the analysis node and merged its partial.
def afterAnalysis {V : Type} (embed : String → Except String V)
    (query : V → Nat → Except String (List (Option Job)))
    (llm : Prompt → Except String String) (s : AgentState) : AgentState :=
  mergeState (afterRetrieve embed query s)
    (generate_analysis llm (afterRetrieve embed query s))

-- The event stream of one full run of the compiled graph (src/app.py lines
-- 266-279 and 294-295): one (node name, partial update) event per node that
-- executed, in execution order.
def run_full_events {V : Type} (embed : String → Except String V)
    (query : V → Nat → Except String (List (Option Job)))
    (llm : Prompt → Except String String) (s : AgentState) :
    List (String × PartialUpdate) :=
  if branchToTailor (afterAnalysis embed query llm s) then
    [("retrieve_jobs", retrieve_jobs embed query s),
     ("generate_analysis", generate_analysis llm (afterRetrieve embed query s)),
     ("tailor_resume", tailor_resume llm (afterAnalysis embed query llm s))]
  else
    [("retrieve_jobs", retrieve_jobs embed query s),
     ("generate_analysis", generate_analysis llm (afterRetrieve embed query s))]

-- One full run of the compiled graph: entry point retrieve_jobs, edge to
-- generate_analysis, conditional edge to tailor_resume or END, edge from
-- tailor_resume to END (src/app.py lines 271-279).  Returns the final
-- LangGraph state, with every partial merged by the channel merge.
def run_full {V : Type} (embed : String → Except String V)
    (query : V → Nat → Except String (List (Option Job)))
    (llm : Prompt → Except String String) (s : AgentState) : AgentState :=
  if branchToTailor (afterAnalysis embed query llm s) then
    mergeState (afterAnalysis embed query llm s)
      (tailor_resume llm (afterAnalysis embed query llm s))
  else
    afterAnalysis embed query llm s

-- The tailoring-only entry point (src/app.py lines 322-324): the button
-- handler calls tailor_resume directly on the session state and applies the
-- returned partial with plain dict.update.
def run_tailoring_only (llm : Prompt → Except String String)
    (s : AgentState) : AgentState :=
  sessionUpdate s (tailor_resume llm s)

-- One displayed row of display_jobs_table (src/app.py lines 168-174):
-- title, company, location, description and link, each defaulting to a
-- placeholder when the key is absent; the description column truncates to
-- 150 characters when truthy and shows "N/A" otherwise.
def displayRow (job : Job) : String × String × String × String × String :=
  (Job.getD job "Job Title" "N/A",
   Job.getD job "Company Name" "N/A",
   Job.getD job "Location" "N/A",
   (if pyTruthyStr (Job.get job "Job Description") then
      (Job.getD job "Job Description" "").take 150 ++ "..."
    else "N/A"),
   Job.getD job "Job Link" "#")

-- Concrete fixtures used to instantiate the theorems at explicit inputs.

def wEmbed : String → Except String Nat := fun _ => Except.ok 0

def wQuery : Nat → Nat → Except String (List (Option Job)) :=
  fun _ _ => Except.ok [some [("Job Title", "Staff Engineer")], none]

def wLLM : Prompt → Except String String := fun _ => Except.ok "ok"

def failEmbed : String → Except String Nat := fun _ => Except.error "embedder down"

def failLLM : Prompt → Except String String := fun _ => Except.error "llm down"

def emptyState : AgentState :=
  { resume_text := "resume", jobs := [], history := [], current_response := "",
    selected_job := none, error := none }

-- A state whose history already has an entry before the run starts.
def priorHistoryState : AgentState :=
  { resume_text := "resume", jobs := [], history := ["prior entry"],
    current_response := "", selected_job := none, error := none }

-- A state whose selected_job is present but is the empty mapping.
def emptySelectedState : AgentState :=
  { resume_text := "resume", jobs := [], history := [], current_response := "",
    selected_job := some [], error := none }

-- A state mid-session: jobs retrieved, analysis done, a job selected.
def sessionState : AgentState :=
  { resume_text := "resume", jobs := [[("Job Title", "T")]],
    history := ["Retrieved jobs from Pinecone", "Generated career analysis"],
    current_response := "analysis", selected_job := some [("Job Title", "T")],
    error := none }

-- A state whose selected job is a non-empty record missing the Job Title key.
def missingTitleState : AgentState :=
  { resume_text := "resume", jobs := [], history := [], current_response := "",
    selected_job := some [("Company Name", "Acme")], error := none }

-- A state with non-empty jobs and a selected job carrying a title.
def sFail : AgentState :=
  { resume_text := "resume", jobs := [[("Job Title", "T")]], history := [],
    current_response := "", selected_job := some [("Job Title", "T")],
    error := none }

-- Helper lemmas shared by the claim theorems.

-- The channel merge never touches selected_job.
theorem mergeState_selected_job (s : AgentState) (p : PartialUpdate) :
    (mergeState s p).selected_job = s.selected_job := rfl

-- The conditional-edge predicate only reads selected_job, so merging any
-- partial leaves it unchanged.
theorem branchToTailor_mergeState (s : AgentState) (p : PartialUpdate) :
    branchToTailor (mergeState s p) = branchToTailor s := rfl

-- The branch decision taken after the analysis node equals the decision on
-- the input state: no node partial carries a selected_job key.
theorem branch_after {V : Type} (embed : String → Except String V)
    (query : V → Nat → Except String (List (Option Job)))
    (llm : Prompt → Except String String) (s : AgentState) :
    branchToTailor (afterAnalysis embed query llm s) = branchToTailor s := rfl

-- Every branch of retrieve_jobs yields a history key holding one entry.
theorem retrieve_jobs_hist {V : Type} (embed : String → Except String V)
    (query : V → Nat → Except String (List (Option Job))) (s : AgentState) :
    ∃ a, (retrieve_jobs embed query s).history = some [a] := by
  unfold retrieve_jobs
  split
  · exact ⟨_, rfl⟩
  · split
    · exact ⟨_, rfl⟩
    · exact ⟨_, rfl⟩

-- Every branch of generate_analysis yields a history key holding one entry.
theorem generate_analysis_hist (llm : Prompt → Except String String)
    (s : AgentState) :
    ∃ a, (generate_analysis llm s).history = some [a] := by
  unfold generate_analysis
  split
  · exact ⟨_, rfl⟩
  · split
    · exact ⟨_, rfl⟩
    · exact ⟨_, rfl⟩

-- Every branch of tailor_resume yields a history key holding one entry.
theorem tailor_resume_hist (llm : Prompt → Except String String)
    (s : AgentState) :
    ∃ a, (tailor_resume llm s).history = some [a] := by
  unfold tailor_resume
  split
  · exact ⟨_, rfl⟩
  · split
    · exact ⟨_, rfl⟩
    · split
      · exact ⟨_, rfl⟩
      · split
        · exact ⟨_, rfl⟩
        · exact ⟨_, rfl⟩

-- generate_analysis never returns a jobs key.
theorem generate_analysis_jobs_none (llm : Prompt → Except String String)
    (s : AgentState) : (generate_analysis llm s).jobs = none := by
  unfold generate_analysis
  split
  · rfl
  · split
    · rfl
    · rfl

-- tailor_resume never returns a jobs key.
theorem tailor_resume_jobs_none (llm : Prompt → Except String String)
    (s : AgentState) : (tailor_resume llm s).jobs = none := by
  unfold tailor_resume
  split
  · rfl
  · split
    · rfl
    · split
      · rfl
      · split
        · rfl
        · rfl

-- The merged history is the old history with the partial's entries appended.
theorem mergeState_history_len (s : AgentState) (p : PartialUpdate) :
    (mergeState s p).history.length =
      s.history.length + (p.history.getD []).length := by
  simp [mergeState]

-- tailor_resume reads only selected_job and resume_text from the state.
theorem tailor_resume_congr (llm : Prompt → Except String String)
    (s1 s2 : AgentState) (h1 : s1.selected_job = s2.selected_job)
    (h2 : s1.resume_text = s2.resume_text) :
    tailor_resume llm s1 = tailor_resume llm s2 := by
  unfold tailor_resume
  rw [h1, h2]

-- Applying the same partial twice with dict.update is the same as applying
-- it once: a key present in the partial is overwritten with the same value,
-- a key absent from the partial is left alone.
theorem sessionUpdate_idem (s : AgentState) (p : PartialUpdate) :
    sessionUpdate (sessionUpdate s p) p = sessionUpdate s p := by
  rcases p with ⟨j, h, c, e⟩
  cases j <;> cases h <;> cases c <;> cases e <;> rfl

-- When the tailoring branch is taken and the LLM always fails, tailor_resume
-- returns an error partial: error set, the failure history entry, and no
-- jobs or current_response key (the KeyError path and the LLM-failure path
-- both have this shape).
theorem tailor_failure_partial (llm : Prompt → Except String String)
    (s : AgentState) (e2 : String) (hsel : branchToTailor s = true)
    (hllm : ∀ p, llm p = Except.error e2) :
    (tailor_resume llm s).error.isSome = true ∧
    (tailor_resume llm s).history = some ["Tailoring failed"] ∧
    (tailor_resume llm s).jobs = none ∧
    (tailor_resume llm s).current_response = none := by
  unfold tailor_resume
  split
  · rename_i hnone
    simp [branchToTailor, hnone] at hsel
  · rename_i sj hsome
    split
    · rename_i hempty
      simp [branchToTailor, hsome, hempty] at hsel
    · split
      · exact ⟨rfl, rfl, rfl, rfl⟩
      · rename_i title htitle
        rw [hllm (tailorPrompt title sj s.resume_text)]
        exact ⟨rfl, rfl, rfl, rfl⟩

/-- Claim C2: for every state and every behavior of the injected
dependencies, each step catches failures of its own external calls and turns
them into a partial update carrying an error field and a descriptive history
entry (steps are total functions: failures are values, never exceptions),
and the driver does not abort the remaining pipeline: with the embedder and
the LLM failing, all scheduled nodes still execute and the run terminates
with the error inspectable in the final state. -/
theorem steps_catch_external_failures {V : Type}
    (embed : String → Except String V)
    (query : V → Nat → Except String (List (Option Job)))
    (llm : Prompt → Except String String) (s : AgentState) (e1 e2 : String)
    (hemb : embed s.resume_text = Except.error e1)
    (hllm : ∀ p, llm p = Except.error e2)
    (hjobs : s.jobs.isEmpty = false)
    (hsel : branchToTailor s = true) :
    retrieve_jobs embed query s =
      { jobs := none, history := some ["Job retrieval failed"],
        current_response := none, error := some e1 } ∧
    generate_analysis llm s =
      { jobs := none, history := some ["Analysis generation failed"],
        current_response := none, error := some e2 } ∧
    (tailor_resume llm s).error.isSome = true ∧
    (tailor_resume llm s).history = some ["Tailoring failed"] ∧
    (run_full_events embed query llm s).map Prod.fst =
      ["retrieve_jobs", "generate_analysis", "tailor_resume"] ∧
    (run_full embed query llm s).error.isSome = true := by
  have htail := tailor_failure_partial llm s e2 hsel hllm
  refine ⟨?_, ?_, htail.1, htail.2.1, ?_, ?_⟩
  · unfold retrieve_jobs
    rw [hemb]
  · unfold generate_analysis
    rw [hjobs]
    simp only [Bool.false_eq_true, if_false]
    rw [hllm (analysisPrompt s.jobs)]
  · unfold run_full_events
    rw [branch_after embed query llm s, hsel]
    rfl
  · have hcong : tailor_resume llm (afterAnalysis embed query llm s) =
        tailor_resume llm s := tailor_resume_congr llm _ s rfl rfl
    obtain ⟨y, hy⟩ := Option.isSome_iff_exists.mp htail.1
    unfold run_full
    rw [branch_after embed query llm s, hsel]
    simp only [if_true]
    simp [mergeState, hcong, hy]

/-- Claim C2 witness: the failure behavior at a concrete state with a failing
embedder stub and a failing LLM stub. -/
theorem steps_catch_external_failures_witness :
    failEmbed sFail.resume_text = Except.error "embedder down" ∧
    sFail.jobs.isEmpty = false ∧
    branchToTailor sFail = true ∧
    retrieve_jobs failEmbed wQuery sFail =
      { jobs := none, history := some ["Job retrieval failed"],
        current_response := none, error := some "embedder down" } :=
  ⟨rfl, rfl, by decide,
   (steps_catch_external_failures failEmbed wQuery failLLM sFail
      "embedder down" "llm down" rfl (fun _ => rfl) rfl (by decide)).1⟩

/-- Claim C10: when a step fails on an external call, its partial update
carries no jobs and no current_response key, so after the channel merge the
jobs and current_response fields retain exactly the values they had before
the failing step ran: the error path is atomic apart from error and
history. -/
theorem error_partial_frame {V : Type}
    (embed : String → Except String V)
    (query : V → Nat → Except String (List (Option Job)))
    (llm : Prompt → Except String String) (s : AgentState) (e1 e2 : String)
    (hemb : embed s.resume_text = Except.error e1)
    (hllm : ∀ p, llm p = Except.error e2)
    (hjobs : s.jobs.isEmpty = false)
    (hsel : branchToTailor s = true) :
    (retrieve_jobs embed query s).jobs = none ∧
    (retrieve_jobs embed query s).current_response = none ∧
    (mergeState s (retrieve_jobs embed query s)).jobs = s.jobs ∧
    (mergeState s (retrieve_jobs embed query s)).current_response = s.current_response ∧
    (generate_analysis llm s).jobs = none ∧
    (generate_analysis llm s).current_response = none ∧
    (mergeState s (generate_analysis llm s)).jobs = s.jobs ∧
    (mergeState s (generate_analysis llm s)).current_response = s.current_response ∧
    (tailor_resume llm s).jobs = none ∧
    (tailor_resume llm s).current_response = none ∧
    (mergeState s (tailor_resume llm s)).jobs = s.jobs ∧
    (mergeState s (tailor_resume llm s)).current_response = s.current_response := by
  have htail := tailor_failure_partial llm s e2 hsel hllm
  have hr : retrieve_jobs embed query s =
      { jobs := none, history := some ["Job retrieval failed"],
        current_response := none, error := some e1 } := by
    unfold retrieve_jobs
    rw [hemb]
  have ha : generate_analysis llm s =
      { jobs := none, history := some ["Analysis generation failed"],
        current_response := none, error := some e2 } := by
    unfold generate_analysis
    rw [hjobs]
    simp only [Bool.false_eq_true, if_false]
    rw [hllm (analysisPrompt s.jobs)]
  refine ⟨?_, ?_, ?_, ?_, ?_, ?_, ?_, ?_, htail.2.2.1, htail.2.2.2, ?_, ?_⟩
  · rw [hr]
  · rw [hr]
  · rw [hr]; rfl
  · rw [hr]; rfl
  · rw [ha]
  · rw [ha]
  · rw [ha]; rfl
  · rw [ha]; rfl
  · show (tailor_resume llm s).jobs.getD s.jobs = s.jobs
    rw [htail.2.2.1]; rfl
  · show (tailor_resume llm s).current_response.getD s.current_response = s.current_response
    rw [htail.2.2.2]; rfl

/-- Claim C10 witness: the frame preservation at a concrete state with a
failing embedder stub and a failing LLM stub. -/
theorem error_partial_frame_witness :
    failEmbed sFail.resume_text = Except.error "embedder down" ∧
    (mergeState sFail (retrieve_jobs failEmbed wQuery sFail)).jobs = sFail.jobs ∧
    (mergeState sFail (retrieve_jobs failEmbed wQuery sFail)).current_response =
      sFail.current_response :=
  ⟨rfl,
   (error_partial_frame failEmbed wQuery failLLM sFail
      "embedder down" "llm down" rfl (fun _ => rfl) rfl (by decide)).2.2.1,
   (error_partial_frame failEmbed wQuery failLLM sFail
      "embedder down" "llm down" rfl (fun _ => rfl) rfl (by decide)).2.2.2.1⟩

/-- Claim C1: for every partial update produced by any of the three steps,
the state merge determined by the AgentState channel declaration replaces
every key present in the partial, except history, whose entries are
concatenated onto the existing log; consequently the previous history is a
prefix of the merged history. -/
theorem merge_replacement_except_history {V : Type}
    (embed : String → Except String V)
    (query : V → Nat → Except String (List (Option Job)))
    (llm : Prompt → Except String String)
    (s0 s : AgentState) (p : PartialUpdate)
    (_hp : p = retrieve_jobs embed query s0 ∨ p = generate_analysis llm s0 ∨
           p = tailor_resume llm s0) :
    (mergeState s p).history = s.history ++ p.history.getD [] ∧
    (mergeState s p).jobs = p.jobs.getD s.jobs ∧
    (mergeState s p).current_response = p.current_response.getD s.current_response ∧
    (mergeState s p).error = (match p.error with
                              | some e => some e
                              | none => s.error) ∧
    ∃ appended, (mergeState s p).history = s.history ++ appended :=
  ⟨rfl, rfl, rfl, rfl, ⟨p.history.getD [], rfl⟩⟩

/-- Claim C1 witness: the merge facts at a concrete state and the concrete
partial produced by the retrieval step on stub dependencies. -/
theorem merge_replacement_except_history_witness :
    (mergeState emptyState (retrieve_jobs wEmbed wQuery emptyState)).history =
      emptyState.history ++ (retrieve_jobs wEmbed wQuery emptyState).history.getD [] :=
  (merge_replacement_except_history wEmbed wQuery wLLM emptyState emptyState
    (retrieve_jobs wEmbed wQuery emptyState) (Or.inl rfl)).1

/-- Claim C5: for every state whose jobs sequence is empty, the analysis step
short-circuits: it returns the fixed "no jobs found" response with a history
entry and no error, and its result does not depend on the injected LLM at
all (no Completion.generate call). -/
theorem analysis_short_circuit_empty_jobs
    (llm llm2 : Prompt → Except String String) (s : AgentState)
    (h : s.jobs = []) :
    generate_analysis llm s =
      { jobs := none, history := some ["Skipped analysis"],
        current_response := some "No jobs found for analysis", error := none } ∧
    generate_analysis llm s = generate_analysis llm2 s := by
  have hE : s.jobs.isEmpty = true := by rw [h]; rfl
  constructor
  · unfold generate_analysis
    simp [hE]
  · unfold generate_analysis
    simp [hE]

/-- Claim C5 witness: the short-circuit at a concrete empty-jobs state, with a
succeeding and a failing LLM stub. -/
theorem analysis_short_circuit_empty_jobs_witness :
    emptyState.jobs = [] ∧
    (generate_analysis wLLM emptyState =
      { jobs := none, history := some ["Skipped analysis"],
        current_response := some "No jobs found for analysis", error := none } ∧
     generate_analysis wLLM emptyState = generate_analysis failLLM emptyState) :=
  ⟨rfl, analysis_short_circuit_empty_jobs wLLM failLLM emptyState rfl⟩

/-- Claim C6: for every state whose selected_job is absent, the tailoring step
is a no-op that reports the "no job selected" message with a history entry and
no error, and its result does not depend on the injected LLM at all (no
Completion.generate call). -/
theorem tailoring_skip_no_selected_job
    (llm llm2 : Prompt → Except String String) (s : AgentState)
    (h : s.selected_job = none) :
    tailor_resume llm s =
      { jobs := none, history := some ["Skipped tailoring"],
        current_response := some "No job selected for tailoring", error := none } ∧
    tailor_resume llm s = tailor_resume llm2 s := by
  constructor
  · unfold tailor_resume
    rw [h]
  · unfold tailor_resume
    rw [h]

/-- Claim C6 witness: the no-op at a concrete state with no selected job, with
a succeeding and a failing LLM stub. -/
theorem tailoring_skip_no_selected_job_witness :
    emptyState.selected_job = none ∧
    (tailor_resume wLLM emptyState =
      { jobs := none, history := some ["Skipped tailoring"],
        current_response := some "No job selected for tailoring", error := none } ∧
     tailor_resume wLLM emptyState = tailor_resume failLLM emptyState) :=
  ⟨rfl, tailoring_skip_no_selected_job wLLM failLLM emptyState rfl⟩

/-- Claim C7: the jobs field is written only by the retrieval step: the
partials returned by the analysis and tailoring steps never contain a jobs
key, so merging either of them leaves the jobs sequence of the state exactly
as retrieval produced it. -/
theorem jobs_only_from_retrieval (llm : Prompt → Except String String)
    (s : AgentState) :
    (generate_analysis llm s).jobs = none ∧
    (tailor_resume llm s).jobs = none ∧
    (mergeState s (generate_analysis llm s)).jobs = s.jobs ∧
    (mergeState s (tailor_resume llm s)).jobs = s.jobs := by
  refine ⟨generate_analysis_jobs_none llm s, tailor_resume_jobs_none llm s, ?_, ?_⟩
  · show (generate_analysis llm s).jobs.getD s.jobs = s.jobs
    rw [generate_analysis_jobs_none llm s]
    rfl
  · show (tailor_resume llm s).jobs.getD s.jobs = s.jobs
    rw [tailor_resume_jobs_none llm s]
    rfl

-- The merged state after the retrieval node has one more history entry.
theorem afterRetrieve_hist_len {V : Type} (embed : String → Except String V)
    (query : V → Nat → Except String (List (Option Job))) (s : AgentState) :
    (afterRetrieve embed query s).history.length = s.history.length + 1 := by
  obtain ⟨a, ha⟩ := retrieve_jobs_hist embed query s
  unfold afterRetrieve
  rw [mergeState_history_len, ha]
  rfl

-- The merged state after the analysis node has two more history entries.
theorem afterAnalysis_hist_len {V : Type} (embed : String → Except String V)
    (query : V → Nat → Except String (List (Option Job)))
    (llm : Prompt → Except String String) (s : AgentState) :
    (afterAnalysis embed query llm s).history.length = s.history.length + 2 := by
  obtain ⟨a, ha⟩ := generate_analysis_hist llm (afterRetrieve embed query s)
  unfold afterAnalysis
  rw [mergeState_history_len, ha, afterRetrieve_hist_len]
  simp only [Option.getD_some, List.length_singleton]

/-- Claim C3 counterexample: on an input state whose history already holds one
entry and whose selected_job is absent, run_full ends with a history of length
3, not 2, so the length does not equal the number of steps executed. -/
theorem run_full_history_exact_counterexample :
    priorHistoryState.selected_job = none ∧
    (run_full wEmbed wQuery wLLM priorHistoryState).history.length ≠ 2 ∧
    (run_full wEmbed wQuery wLLM priorHistoryState).history.length = 3 := by
  refine ⟨rfl, ?_, ?_⟩ <;> decide

/-- Claim C3 amended: for every input state, run_full grows the history by
exactly the number of steps executed, one entry per step: by 2 when the
tailoring branch is not taken and by 3 when it is; the length equals 2
respectively 3 exactly when the input history is empty. -/
theorem run_full_history_growth {V : Type} (embed : String → Except String V)
    (query : V → Nat → Except String (List (Option Job)))
    (llm : Prompt → Except String String) (s : AgentState) :
    (run_full embed query llm s).history.length =
      s.history.length + (if branchToTailor s then 3 else 2) := by
  have hA := afterAnalysis_hist_len embed query llm s
  unfold run_full
  rw [branch_after embed query llm s]
  cases hb : branchToTailor s with
  | false =>
    show (afterAnalysis embed query llm s).history.length = s.history.length + 2
    exact hA
  | true =>
    obtain ⟨a, ha⟩ := tailor_resume_hist llm (afterAnalysis embed query llm s)
    show (mergeState (afterAnalysis embed query llm s)
            (tailor_resume llm (afterAnalysis embed query llm s))).history.length =
         s.history.length + 3
    rw [mergeState_history_len, ha, hA]
    simp only [Option.getD_some, List.length_singleton]

/-- Claim C4 counterexample: a state whose selected_job is present but is the
empty mapping: the conditional edge still routes to END and the tailoring node
is never invoked, so the transition is not equivalent to presence of
selected_job. -/
theorem conditional_edge_presence_counterexample :
    emptySelectedState.selected_job.isSome = true ∧
    branchToTailor emptySelectedState = false ∧
    (run_full_events wEmbed wQuery wLLM emptySelectedState).map Prod.fst =
      ["retrieve_jobs", "generate_analysis"] := by
  refine ⟨rfl, rfl, ?_⟩
  decide

/-- Claim C4 amended: after the analysis node, the driver transitions to the
tailoring node if and only if selected_job is truthy at that instant, that
is, present and a non-empty mapping; the decision at that edge equals the
decision on the input state, and when it is negative the run reaches END
without invoking the tailoring node. -/
theorem conditional_edge_truthiness {V : Type} (embed : String → Except String V)
    (query : V → Nat → Except String (List (Option Job)))
    (llm : Prompt → Except String String) (s : AgentState) :
    (run_full_events embed query llm s).map Prod.fst =
      (if branchToTailor s then
        ["retrieve_jobs", "generate_analysis", "tailor_resume"]
       else ["retrieve_jobs", "generate_analysis"]) ∧
    branchToTailor (afterAnalysis embed query llm s) = branchToTailor s := by
  refine ⟨?_, branch_after embed query llm s⟩
  unfold run_full_events
  rw [branch_after embed query llm s]
  cases hb : branchToTailor s with
  | false => rfl
  | true => rfl

/-- Claim C8 counterexample: run_tailoring_only applies the node partial with
plain dict.update, so the first call replaces the two-entry session history
with the single tailoring entry instead of appending to it, and a second call
leaves it at one entry instead of accumulating. -/
theorem tailoring_only_append_counterexample :
    sessionState.history.length = 2 ∧
    (run_tailoring_only wLLM sessionState).history ≠
      sessionState.history ++ ["Generated tailored resume suggestions"] ∧
    (run_tailoring_only wLLM sessionState).history =
      ["Generated tailored resume suggestions"] ∧
    (run_tailoring_only wLLM (run_tailoring_only wLLM sessionState)).history =
      ["Generated tailored resume suggestions"] := by
  refine ⟨rfl, ?_, ?_, ?_⟩ <;> decide

/-- Claim C8 amended: run_tailoring_only leaves jobs unchanged, replaces the
history with the single entry returned by the tailoring step (the session
update overwrites the history key rather than appending), and calling it a
second time on the result changes nothing at all: the operation is
idempotent, log included. -/
theorem tailoring_only_idempotent_replaces_log
    (llm : Prompt → Except String String) (s : AgentState) :
    (run_tailoring_only llm s).jobs = s.jobs ∧
    (run_tailoring_only llm s).history = (tailor_resume llm s).history.getD s.history ∧
    (∃ a, (tailor_resume llm s).history = some [a]) ∧
    run_tailoring_only llm (run_tailoring_only llm s) = run_tailoring_only llm s := by
  refine ⟨?_, rfl, tailor_resume_hist llm s, ?_⟩
  · show (tailor_resume llm s).jobs.getD s.jobs = s.jobs
    rw [tailor_resume_jobs_none llm s]
    rfl
  · unfold run_tailoring_only
    rw [tailor_resume_congr llm (sessionUpdate s (tailor_resume llm s)) s rfl rfl]
    exact sessionUpdate_idem s (tailor_resume llm s)

/-- Claim C9 counterexample: a selected job record missing the Job Title key
makes the tailoring step return a failure partial (the caught KeyError) with
an error field and the failure history entry, instead of substituting a
placeholder. -/
theorem tailoring_missing_title_counterexample :
    missingTitleState.selected_job.isSome = true ∧
    (tailor_resume wLLM missingTitleState).error = some "\x27Job Title\x27" ∧
    (tailor_resume wLLM missingTitleState).history = some ["Tailoring failed"] := by
  refine ⟨rfl, ?_, ?_⟩ <;> decide

-- With an LLM that always succeeds, the tailoring step produces no error
-- whenever the selected job is a non-empty record carrying a Job Title key.
theorem tailor_resume_ok_no_error (f : Prompt → String) (s : AgentState)
    (sj : Job) (title : String) (hsel : s.selected_job = some sj)
    (hne : List.isEmpty sj = false)
    (htitle : Job.get sj "Job Title" = some title) :
    (tailor_resume (fun p => Except.ok (f p)) s).error = none := by
  unfold tailor_resume
  split
  · rename_i hnone
    rw [hsel] at hnone
  · rename_i sj2 hsome
    rw [hsel] at hsome
    injection hsome with hinj
    subst hinj
    split
    · rename_i hempty
      rw [hne] at hempty
    · split
      · rename_i hnoneT
        rw [htitle] at hnoneT
        exact Option.noConfusion hnoneT
      · rfl

/-- Claim C9 amended: a job record missing expected keys is tolerated with
placeholders by the analysis step (which never fails when the LLM succeeds,
whatever the job records contain) and by the job display row (every field
falls back to a placeholder); the tailoring step tolerates a missing
description, but a selected job missing the Job Title key makes it return an
error partial rather than substituting a placeholder. -/
theorem missing_fields_tolerance_amended (f : Prompt → String) (s : AgentState)
    (sj : Job) (title : String) (hsel : s.selected_job = some sj)
    (hne : List.isEmpty sj = false)
    (htitle : Job.get sj "Job Title" = some title) :
    (generate_analysis (fun p => Except.ok (f p)) s).error = none ∧
    displayRow [] = ("N/A", "N/A", "N/A", "N/A", "#") ∧
    (tailor_resume (fun p => Except.ok (f p)) s).error = none := by
  refine ⟨?_, rfl, tailor_resume_ok_no_error f s sj title hsel hne htitle⟩
  unfold generate_analysis
  split
  · rfl
  · rfl

/-- Claim C9 amended witness: the tolerance facts at a concrete state whose
selected job carries a title, with a succeeding LLM stub. -/
theorem missing_fields_tolerance_amended_witness :
    sFail.selected_job = some [("Job Title", "T")] ∧
    List.isEmpty ([("Job Title", "T")] : Job) = false ∧
    Job.get [("Job Title", "T")] "Job Title" = some "T" ∧
    (tailor_resume (fun _ => Except.ok "text") sFail).error = none :=
  ⟨rfl, rfl, by decide,
   (missing_fields_tolerance_amended (fun _ => "text") sFail [("Job Title", "T")]
      "T" rfl rfl (by decide)).2.2⟩

end CareerAssistant
